import Mathlib

/-!
Verification of the credential-issuance and authenticated-request core of the
marketing-analytics scripts (marketing-plan/scripts).

The relevant Python code lives, duplicated, in
`magical_stories_analytics.py` (`WorkingAnalyticsClient.generate_jwt_token`,
`WorkingAnalyticsClient.make_request`),
`comprehensive_marketing_analytics.py`
(`ComprehensiveMarketingAnalytics.generate_jwt_token`,
`ComprehensiveMarketingAnalytics.make_appstore_request`) and
`appstore_auth_test.py` (`generate_jwt_token`, `test_token`).
The two class copies are textually identical in the parts embedded here; the
embedding is written once and named for both.

Modelling conventions:
 - Python dict/JSON values are the inductive `Json`.
 - The HTTP exchange performed by `requests` is an environment input
   (`Exchange`): either a response (status code, raw text, and the result of
   attempting to parse the body as JSON) or a raised exception message.
 - `sys.exit(1)` (process termination) is `Except.error 1`.
 - ECDSA-P256 signing (`cryptography` / PyJWT internals) is an external
   primitive; it is modelled as a computable stub producing a byte list, and
   every theorem that touches the signature quantifies over arbitrary
   signature bytes, so no theorem depends on the stub's values.
-/

namespace MagicalStories

/-- JSON values as handled by Python's `json` module / `requests`' `.json()`. -/
inductive Json where
  | null
  | bool (b : Bool)
  | num (n : Int)
  | str (s : String)
  | arr (xs : List Json)
  | obj (fields : List (String × Json))

/-- Configuration fields set in `WorkingAnalyticsClient.__init__` /
`ComprehensiveMarketingAnalytics.__init__` (and as constants in
`appstore_auth_test.generate_jwt_token`). -/
structure ClientConfig where
  key_id : String
  issuer_id : String
  private_key_path : String
  base_url : String
  app_id : String

/-- The concrete configuration hardcoded in the scripts. -/
def magicalStoriesConfig : ClientConfig :=
  { key_id := "RHM24L7VXD"
    issuer_id := "c419fd84-aa0b-4d05-9688-19d736cc2575"
    private_key_path := "/Users/quang.tranminh/Library/Mobile Documents/com~apple~CloudDocs/DevelopmentCertificates/AuthKey_RHM24L7VXD.p8"
    base_url := "https://api.appstoreconnect.apple.com"
    app_id := "6747953770" }

/-- The JWT claims dictionary built in `generate_jwt_token`. -/
structure JwtPayload where
  iss : String
  iat : Nat
  exp : Nat
  aud : String

/-- The JWT header dictionary built in `generate_jwt_token`. -/
structure JwtHeader where
  kid : String
  typ : String

/-- The payload built in `generate_jwt_token`:
`{"iss": self.issuer_id, "iat": now, "exp": now + 1200, "aud": "appstoreconnect-v1"}`
where `now = int(time.time())`. -/
def tokenPayload (cfg : ClientConfig) (now : Nat) : JwtPayload :=
  { iss := cfg.issuer_id
    iat := now
    exp := now + 1200
    aud := "appstoreconnect-v1" }

/-- The header built in `generate_jwt_token`: `{"kid": self.key_id, "typ": "JWT"}`. -/
def tokenHeader (cfg : ClientConfig) : JwtHeader :=
  { kid := cfg.key_id
    typ := "JWT" }

mutual

/-- Compact JSON serialization of the claims/header dictionaries, standing for
`json.dumps` as used inside PyJWT's `jwt.encode`. Braces are written with
escapes only for lexical hygiene of this file. -/
def Json.dump : Json → String
  | .null => "null"
  | .bool true => "true"
  | .bool false => "false"
  | .num n => toString n
  | .str s => "\"" ++ s ++ "\""
  | .arr xs => "[" ++ String.intercalate "," (Json.dumpList xs) ++ "]"
  | .obj fields =>
      "\x7b" ++ String.intercalate "," (Json.dumpFields fields) ++ "\x7d"

/-- Serialization of array elements. -/
def Json.dumpList : List Json → List String
  | [] => []
  | x :: xs => Json.dump x :: Json.dumpList xs

/-- Serialization of object fields as `"key":value`. -/
def Json.dumpFields : List (String × Json) → List String
  | [] => []
  | (k, v) :: rest => ("\"" ++ k ++ "\":" ++ Json.dump v) :: Json.dumpFields rest

end

/-- JSON form of the JWT payload dictionary. -/
def JwtPayload.toJson (p : JwtPayload) : Json :=
  .obj [("iss", .str p.iss), ("iat", .num p.iat), ("exp", .num p.exp),
        ("aud", .str p.aud)]

/-- JSON form of the JWT header dictionary (PyJWT adds `"alg": "ES256"`). -/
def JwtHeader.toJson (h : JwtHeader) : Json :=
  .obj [("alg", .str "ES256"), ("kid", .str h.kid), ("typ", .str h.typ)]

/-- UTF-8 bytes of a string, as `Nat` values (each value is `< 256` by
construction of UTF-8, which only the base64url encoder consumes). -/
def strBytes (s : String) : List Nat :=
  s.toUTF8.toList.map (fun b => b.toNat)

/-- The base64url alphabet (RFC 4648 §5), used unpadded by the JWT compact
serialization. -/
def b64Alphabet : List Char :=
  "ABCDEFGHIJKLMNOPQRSTUVWXYZabcdefghijklmnopqrstuvwxyz0123456789-_".toList

/-- Character for a 6-bit group. -/
def b64Char (i : Nat) : Char :=
  b64Alphabet.getD i 'A'

/-- Unpadded base64url encoding of a byte list, as PyJWT's
`base64url_encode` (bytes are normalized mod 256; UTF-8 input already is). -/
def base64urlEncode : List Nat → List Char
  | [] => []
  | [a] =>
      let a := a % 256
      [b64Char (a / 4), b64Char (a % 4 * 16)]
  | [a, b] =>
      let a := a % 256
      let b := b % 256
      [b64Char (a / 4), b64Char (a % 4 * 16 + b / 16), b64Char (b % 16 * 4)]
  | a :: b :: c :: rest =>
      let a' := a % 256
      let b' := b % 256
      let c' := c % 256
      b64Char (a' / 4) :: b64Char (a' % 4 * 16 + b' / 16) ::
        b64Char (b' % 16 * 4 + c' / 64) :: b64Char (c' % 64) ::
        base64urlEncode rest

/-- A character is valid base64url. -/
def isB64urlChar (ch : Char) : Bool :=
  b64Alphabet.contains ch

/-- A segment is valid (unpadded) base64url: every character is in the
alphabet and the length is attainable by an unpadded encoding
(`length % 4 ≠ 1`). -/
def isValidB64url (l : List Char) : Bool :=
  l.all isB64urlChar && decide (l.length % 4 ≠ 1)

/-- ECDSA over P-256 with SHA-256 (`ES256`), an external cryptographic
primitive of the `cryptography` package. Modelled as a computable stub
returning the raw 64-byte `r || s` signature; theorems about token structure
quantify over arbitrary signature bytes and never depend on these values. -/
def ecdsaP256Sign (key : Nat) (message : List Nat) : List Nat :=
  List.replicate 64 ((key + message.length) % 256)

/-- JWT compact serialization (the string produced by `jwt.encode`):
`base64url(header) ++ "." ++ base64url(claims) ++ "." ++ base64url(signature)`,
as a character list. -/
def jwtCompact (headerBytes claimsBytes sigBytes : List Nat) : List Char :=
  base64urlEncode headerBytes ++
    ('.' :: (base64urlEncode claimsBytes ++
      ('.' :: base64urlEncode sigBytes)))

/-- The signing input of the compact serialization:
`base64url(header) ++ "." ++ base64url(claims)` as bytes (all ASCII). -/
def signingInput (headerBytes claimsBytes : List Nat) : List Nat :=
  (base64urlEncode headerBytes ++ '.' :: base64urlEncode claimsBytes).map
    (fun ch => ch.toNat)

/-- The character list of the token returned by
`jwt.encode(payload, private_key, algorithm="ES256", headers=headers)`. -/
def tokenChars (cfg : ClientConfig) (key : Nat) (now : Nat) : List Char :=
  let hb := strBytes (JwtHeader.toJson (tokenHeader cfg)).dump
  let cb := strBytes (JwtPayload.toJson (tokenPayload cfg now)).dump
  jwtCompact hb cb (ecdsaP256Sign key (signingInput hb cb))

/-- The token string returned by `generate_jwt_token` on success. -/
def tokenString (cfg : ClientConfig) (key : Nat) (now : Nat) : String :=
  String.mk (tokenChars cfg key now)

/-- State of the private-key file at `self.private_key_path`, as observed by
`open` + `serialization.load_pem_private_key`: the file can be missing
(`open`/`os.path.exists` fails), present but not parsable as a PEM EC private
key, or parsable to a key. -/
inductive KeyFile where
  | missing
  | unparsable
  | parsable (key : Nat)

/-- `generate_jwt_token` (identical in `WorkingAnalyticsClient`,
`ComprehensiveMarketingAnalytics`, and — with an explicit
`os.path.exists` check before the same load — `appstore_auth_test.py`):
reads and parses the private key, builds the payload and header for clock
reading `now`, and returns `jwt.encode(...)`. Every failure path (missing
file, unparsable key, `ImportError`) prints and calls `sys.exit(1)`, modelled
as `Except.error 1` (process exit with code 1). -/
def generate_jwt_token (cfg : ClientConfig) (keyFile : KeyFile) (now : Nat) :
    Except Nat String :=
  match keyFile with
  | .missing => .error 1
  | .unparsable => .error 1
  | .parsable key => .ok (tokenString cfg key now)

/-- The request that `make_request` hands to `requests`: URL, method, the
headers dictionary, the `json=` keyword argument, and the `timeout=` keyword
argument (`none` means the keyword is absent, i.e. `requests`' default of no
timeout). -/
structure HttpRequest where
  url : String
  method : String
  headers : List (String × String)
  jsonBody : Option Json
  timeout : Option Nat

/-- The request built by `make_request` / `make_appstore_request`:
`url = self.base_url + endpoint`; headers are always
`{"Authorization": "Bearer " + token, "Content-Type": "application/json"}`;
the `GET` branch calls `session.get(url, headers=headers)` (no `json=`,
dropping `data`), the `POST` and fallback branches pass `json=data`;
no branch passes `timeout=`. -/
def builtRequest (cfg : ClientConfig) (endpoint method : String)
    (data : Option Json) (token : String) : HttpRequest :=
  { url := cfg.base_url ++ endpoint
    method := method
    headers := [("Authorization", "Bearer " ++ token),
                ("Content-Type", "application/json")]
    jsonBody := if method = "GET" then none else data
    timeout := none }

/-- The request built by `appstore_auth_test.test_token` for each probed
endpoint: `requests.get(f"https://api.appstoreconnect.apple.com{endpoint}",
headers=headers, timeout=30)`. -/
def test_token_request (endpoint token : String) : HttpRequest :=
  { url := "https://api.appstoreconnect.apple.com" ++ endpoint
    method := "GET"
    headers := [("Authorization", "Bearer " ++ token),
                ("Content-Type", "application/json")]
    jsonBody := none
    timeout := some 30 }

/-- What the HTTP exchange inside the `try` block comes to, an environment
input: either a response arrived — carrying `response.status_code`,
`response.text`, and the result of `response.json()` (`some` the parsed value,
`none` when parsing raises) — or some exception was raised (connection error,
timeout, DNS failure, ...), carrying its `str(e)`. -/
inductive Exchange where
  | response (status : Nat) (text : String) (parsed : Option Json)
  | raised (msg : String)

/-- The `"error"` field of the dictionaries returned by `make_request` on
failure: either the integer `response.status_code` or the string
`"request_failed"`. -/
inductive ErrorCode where
  | status (n : Nat)
  | request_failed
deriving DecidableEq

/-- The value returned by one call of `make_request` / `make_appstore_request`:
either the parsed response body returned directly (`return response.json()`)
or one of the two error dictionaries
`{"error": ..., "message": ..., "endpoint": endpoint}`. -/
inductive RequestResult where
  | success (body : Json)
  | errorDict (error : ErrorCode) (message : String) (endpoint : String)

/-- `str(e)` of the `json.JSONDecodeError` raised by `response.json()` on an
unparsable body; the exact text comes from the `json` library, modelled here
as a function of the raw body. -/
def decodeErrMsg (text : String) : String :=
  "Expecting value: " ++ text

/-- The classification performed by the `try` block of `make_request`:
statuses 200/201/202 return `response.json()` (whose own parse failure is
caught by the same `except Exception` and becomes the `"request_failed"`
dictionary); every other status returns
`{"error": response.status_code, "message": response.text,
"endpoint": endpoint}`; a raised exception returns
`{"error": "request_failed", "message": str(e), "endpoint": endpoint}`. -/
def classify_response (endpoint : String) (exchange : Exchange) :
    RequestResult :=
  match exchange with
  | .raised msg => .errorDict .request_failed msg endpoint
  | .response status text parsed =>
      if status = 200 ∨ status = 201 ∨ status = 202 then
        match parsed with
        | some j => .success j
        | none => .errorDict .request_failed (decodeErrMsg text) endpoint
      else
        .errorDict (.status status) text endpoint

/-- Observable events of one `make_request` call, in order. -/
inductive Event where
  | issuedToken (iat : Nat) (token : String)
  | sentRequest (req : HttpRequest)

/-- Everything one call of `make_request` produces: the ordered events
(token issuance, request sent), the returned dictionary, and the state of the
client object after the call. -/
structure CallResult where
  events : List Event
  result : RequestResult
  clientAfter : ClientConfig

/-- `WorkingAnalyticsClient.make_request` /
`ComprehensiveMarketingAnalytics.make_appstore_request` with a loadable key:
`token = self.generate_jwt_token()` (signed fresh at clock reading `now`,
no cache read or write), the headers and URL are built, the request is
executed and classified. The method body contains no assignment to `self`,
so the client state passes through unchanged. -/
def make_request (cfg : ClientConfig) (key : Nat) (now : Nat)
    (endpoint method : String) (data : Option Json) (exchange : Exchange) :
    CallResult :=
  let token := tokenString cfg key now
  { events := [.issuedToken now token,
               .sentRequest (builtRequest cfg endpoint method data token)]
    result := classify_response endpoint exchange
    clientAfter := cfg }

/-- `make_appstore_request` is textually identical to `make_request`. -/
def make_appstore_request := make_request

/-- The spec's classification tags for `RequestOutcome` variants. -/
inductive OutcomeTag where
  | Success
  | ClientError
  | ServerError
  | TransportFailure
  | AuthFailure
deriving DecidableEq

/-- Modelled from the spec: the status-classification table of §4.2 step 4
(`200/201/202 → Success`, `401/403 → AuthFailure`, other `400–499 →
ClientError`, `500–599 → ServerError`); `none` for statuses outside the
table. -/
def spec_tag (status : Nat) : Option OutcomeTag :=
  if status = 200 ∨ status = 201 ∨ status = 202 then some .Success
  else if status = 401 ∨ status = 403 then some .AuthFailure
  else if 400 ≤ status ∧ status ≤ 499 then some .ClientError
  else if 500 ≤ status ∧ status ≤ 599 then some .ServerError
  else none

/-- Abstraction of a returned dictionary to a spec tag, using only the
information the dictionary itself carries: a directly returned JSON body is a
`Success`; an error dictionary with an integer `"error"` field is classified
by that preserved status code; the `"request_failed"` dictionary is a
`TransportFailure`. -/
def result_tag : RequestResult → Option OutcomeTag
  | .success _ => some .Success
  | .errorDict .request_failed _ _ => some .TransportFailure
  | .errorDict (.status s) _ _ =>
      if s = 401 ∨ s = 403 then some .AuthFailure
      else if 400 ≤ s ∧ s ≤ 499 then some .ClientError
      else if 500 ≤ s ∧ s ≤ 599 then some .ServerError
      else none

/-- Splitting a character list on `'.'` (Python's `token.split('.')` in the
`__main__` structure check of `appstore_auth_test.py`): the segments between
dots, in order; always at least one segment. -/
def splitOnDot : List Char → List (List Char)
  | [] => [[]]
  | c :: rest =>
      if c = '.' then [] :: splitOnDot rest
      else
        match splitOnDot rest with
        | [] => [[c]]
        | s :: ss => (c :: s) :: ss

/-- Number of token issuances (calls of `generate_jwt_token`) among the
events of a call. -/
def issuedCount (events : List Event) : Nat :=
  events.countP (fun e => match e with | .issuedToken _ _ => true | _ => false)

/-- The requests sent among the events of a call. -/
def sentRequests (events : List Event) : List HttpRequest :=
  events.foldr
    (fun e acc => match e with | .sentRequest r => r :: acc | _ => acc) []

/-!
Helper lemmas about the base64url encoder and dot-splitting.
-/

/-- Every `b64Char` is a character of the alphabet (the out-of-range default
`'A'` also is). -/
theorem b64Char_mem (i : Nat) : b64Char i ∈ b64Alphabet := by
  unfold b64Char
  rcases h : b64Alphabet[i]? with _ | c
  · rw [List.getD_eq_getElem?_getD, h]
    decide
  · rw [List.getD_eq_getElem?_getD, h]
    exact List.get?_mem (by rw [List.get?_eq_getElem?]; exact h)

/-- Membership in the alphabet makes `isB64urlChar` true. -/
theorem isB64urlChar_of_mem {ch : Char} (h : ch ∈ b64Alphabet) :
    isB64urlChar ch = true := by
  unfold isB64urlChar
  exact List.elem_eq_true_of_mem h

/-- Every character emitted by the encoder is a valid base64url character. -/
theorem base64urlEncode_mem_valid :
    ∀ l : List Nat, ∀ ch ∈ base64urlEncode l, isB64urlChar ch = true
  | [], ch, h => by cases h
  | [a], ch, h => by
      simp only [base64urlEncode, List.mem_cons, List.not_mem_nil, or_false]
        at h
      rcases h with h | h <;>
        exact h ▸ isB64urlChar_of_mem (b64Char_mem _)
  | [a, b], ch, h => by
      simp only [base64urlEncode, List.mem_cons, List.not_mem_nil, or_false]
        at h
      rcases h with h | h | h <;>
        exact h ▸ isB64urlChar_of_mem (b64Char_mem _)
  | a :: b :: c :: rest, ch, h => by
      simp only [base64urlEncode, List.mem_cons] at h
      rcases h with h | h | h | h | h
      · exact h ▸ isB64urlChar_of_mem (b64Char_mem _)
      · exact h ▸ isB64urlChar_of_mem (b64Char_mem _)
      · exact h ▸ isB64urlChar_of_mem (b64Char_mem _)
      · exact h ▸ isB64urlChar_of_mem (b64Char_mem _)
      · exact base64urlEncode_mem_valid rest ch h

/-- No emitted character is the dot separator. -/
theorem base64urlEncode_no_dot (l : List Nat) :
    ∀ ch ∈ base64urlEncode l, ch ≠ '.' := by
  intro ch h heq
  have := base64urlEncode_mem_valid l ch h
  rw [heq] at this
  exact absurd this (by decide)

/-- Length of the encoder output in terms of the input length. -/
theorem base64urlEncode_length :
    ∀ l : List Nat, (base64urlEncode l).length = l.length + (l.length + 2) / 3
  | [] => by simp [base64urlEncode]
  | [a] => by simp [base64urlEncode]
  | [a, b] => by simp [base64urlEncode]
  | a :: b :: c :: rest => by
      have ih := base64urlEncode_length rest
      simp only [base64urlEncode, List.length_cons]
      omega

/-- The encoder output is a valid unpadded base64url segment. -/
theorem base64urlEncode_valid (l : List Nat) :
    isValidB64url (base64urlEncode l) = true := by
  unfold isValidB64url
  rw [Bool.and_eq_true]
  constructor
  · rw [List.all_eq_true]
    exact base64urlEncode_mem_valid l
  · rw [decide_eq_true_iff]
    have := base64urlEncode_length l
    omega

/-- `splitOnDot` never returns an empty list of segments. -/
theorem splitOnDot_ne_nil : ∀ l : List Char, splitOnDot l ≠ []
  | [] => by simp [splitOnDot]
  | c :: rest => by
      unfold splitOnDot
      by_cases h : c = '.'
      · simp [h]
      · simp only [h, if_false]
        rcases hs : splitOnDot rest with _ | ⟨s, ss⟩ <;> simp

/-- Splitting a dot-free block followed by anything: the block joins the first
segment of the remainder. -/
theorem splitOnDot_append (xs : List Char) (hxs : ∀ ch ∈ xs, ch ≠ '.') :
    ∀ l : List Char, ∀ s : List Char, ∀ ss : List (List Char),
      splitOnDot l = s :: ss → splitOnDot (xs ++ l) = (xs ++ s) :: ss := by
  induction xs with
  | nil => intro l s ss h; simpa using h
  | cons c xs ih =>
      intro l s ss h
      have hc : c ≠ '.' := hxs c (List.mem_cons_self c xs)
      have hxs' : ∀ ch ∈ xs, ch ≠ '.' := fun ch hm => hxs ch (List.mem_cons_of_mem c hm)
      have hrec := ih hxs' l s ss h
      simp only [List.cons_append, splitOnDot, hc, if_false, List.append_eq,
        hrec]

/-- A dot-free block splits into the single segment it is. -/
theorem splitOnDot_no_dot (xs : List Char) (hxs : ∀ ch ∈ xs, ch ≠ '.') :
    splitOnDot xs = [xs] := by
  have := splitOnDot_append xs hxs [] [] [] rfl
  simpa using this

/-- The compact JWT serialization splits on dots into exactly the three
encoded segments. -/
theorem splitOnDot_jwtCompact (hb cb sb : List Nat) :
    splitOnDot (jwtCompact hb cb sb) =
      [base64urlEncode hb, base64urlEncode cb, base64urlEncode sb] := by
  have h3 : splitOnDot (base64urlEncode sb) = [base64urlEncode sb] :=
    splitOnDot_no_dot _ (base64urlEncode_no_dot sb)
  have h3' : splitOnDot ('.' :: base64urlEncode sb) =
      [] :: [base64urlEncode sb] := by
    rw [splitOnDot, if_pos rfl, h3]
  have h2 : splitOnDot (base64urlEncode cb ++ '.' :: base64urlEncode sb) =
      (base64urlEncode cb ++ []) :: [base64urlEncode sb] :=
    splitOnDot_append _ (base64urlEncode_no_dot cb) _ _ _ h3'
  have h2' : splitOnDot
      ('.' :: (base64urlEncode cb ++ '.' :: base64urlEncode sb)) =
      [] :: ((base64urlEncode cb ++ []) :: [base64urlEncode sb]) := by
    rw [splitOnDot, if_pos rfl, h2]
  have h1 := splitOnDot_append _ (base64urlEncode_no_dot hb) _ _ _ h2'
  unfold jwtCompact
  rw [h1]
  simp

/-- The dictionary returned by `make_request` is the classification of the
exchange. -/
theorem make_request_result (cfg : ClientConfig) (key now : Nat)
    (endpoint method : String) (data : Option Json) (exchange : Exchange) :
    (make_request cfg key now endpoint method data exchange).result
      = classify_response endpoint exchange := rfl

/-!
Claim theorems.
-/

/-- C2: for every endpoint, method and optional body, and for any exception
raised during the HTTP exchange, `make_request` / `make_appstore_request`
returns exactly one dictionary value and propagates nothing: a raised
exception becomes the `request_failed` dictionary, and every exchange outcome
whatsoever yields either the parsed body or one of the two error
dictionaries. -/
theorem C2_no_propagation (cfg : ClientConfig) (key now : Nat)
    (endpoint method : String) (data : Option Json) :
    (∀ msg : String,
      (make_request cfg key now endpoint method data (.raised msg)).result
        = .errorDict .request_failed msg endpoint)
    ∧ ∀ exchange : Exchange,
        (∃ j, (make_request cfg key now endpoint method data exchange).result
            = .success j)
        ∨ ∃ code msg,
            (make_request cfg key now endpoint method data exchange).result
              = .errorDict code msg endpoint := by
  refine ⟨fun msg => rfl, fun exchange => ?_⟩
  rcases exchange with ⟨status, text, parsed⟩ | msg
  · simp only [make_request_result, classify_response]
    by_cases h : status = 200 ∨ status = 201 ∨ status = 202
    · rw [if_pos h]
      rcases parsed with _ | j
      · exact Or.inr ⟨.request_failed, decodeErrMsg text, rfl⟩
      · exact Or.inl ⟨j, rfl⟩
    · rw [if_neg h]
      exact Or.inr ⟨.status status, text, rfl⟩
  · exact Or.inr ⟨.request_failed, msg, rfl⟩

/-- C3: for every clock reading `now`, the token issued by
`generate_jwt_token` carries claims
`{iss = issuer_id, iat = now, exp = now + 1200, aud = "appstoreconnect-v1"}`
and header `{kid = key_id, typ = "JWT"}`; in particular
`exp - iat = 1200`. -/
theorem C3_token_claims (cfg : ClientConfig) (now : Nat) :
    tokenPayload cfg now
      = { iss := cfg.issuer_id, iat := now, exp := now + 1200,
          aud := "appstoreconnect-v1" }
    ∧ tokenHeader cfg = { kid := cfg.key_id, typ := "JWT" }
    ∧ (tokenPayload cfg now).exp - (tokenPayload cfg now).iat = 1200
    ∧ ∀ key, generate_jwt_token cfg (.parsable key) now
        = .ok (tokenString cfg key now) := by
  refine ⟨rfl, rfl, ?_, fun key => rfl⟩
  show now + 1200 - now = 1200
  omega

/-- C6: for every valid signing identity (a parsable key together with the
configured `key_id` and `issuer_id`), the token returned by
`generate_jwt_token` consists of exactly 3 dot-separated segments, each of
which is valid base64url. -/
theorem C6_token_structure (cfg : ClientConfig) (key now : Nat) :
    generate_jwt_token cfg (.parsable key) now
      = .ok (String.mk (tokenChars cfg key now))
    ∧ (splitOnDot (tokenChars cfg key now)).length = 3
    ∧ ∀ seg ∈ splitOnDot (tokenChars cfg key now), isValidB64url seg = true := by
  refine ⟨rfl, ?_, ?_⟩
  · show (splitOnDot (jwtCompact _ _ _)).length = 3
    rw [splitOnDot_jwtCompact]
    rfl
  · show ∀ seg ∈ splitOnDot (jwtCompact _ _ _), isValidB64url seg = true
    rw [splitOnDot_jwtCompact]
    intro seg hseg
    simp only [List.mem_cons, List.not_mem_nil, or_false] at hseg
    rcases hseg with h | h | h <;> exact h ▸ base64urlEncode_valid _

/-- C7: for every response with status 200 whose body is valid JSON,
`make_request` returns the parsed JSON body of the response, exactly. -/
theorem C7_success_exact_body (cfg : ClientConfig) (key now : Nat)
    (endpoint method : String) (data : Option Json) (text : String)
    (j : Json) :
    (make_request cfg key now endpoint method data
      (.response 200 text (some j))).result = .success j := rfl

/-- C8: when the private-key file is missing or unparsable,
`generate_jwt_token` terminates the process (exit code 1) instead of
returning a token; with a parsable key it returns a token and does not
terminate. -/
theorem C8_key_load_fatal (cfg : ClientConfig) (now : Nat) :
    generate_jwt_token cfg .missing now = .error 1
    ∧ generate_jwt_token cfg .unparsable now = .error 1
    ∧ ∀ key, ∃ t, generate_jwt_token cfg (.parsable key) now = .ok t :=
  ⟨rfl, rfl, fun key => ⟨tokenString cfg key now, rfl⟩⟩

/-- C10: every call of `make_request` issues a credential exactly once,
signing a fresh token whose `iat` is the clock reading of that call; the
client object is not mutated, so two successive calls at times `t1`, `t2`
carry independently signed tokens with `iat` equal to `t1` and `t2`
respectively. -/
theorem C10_fresh_token_no_mutation (cfg : ClientConfig) (key t1 t2 : Nat)
    (e1 m1 e2 m2 : String) (d1 d2 : Option Json) (x1 x2 : Exchange) :
    issuedCount (make_request cfg key t1 e1 m1 d1 x1).events = 1
    ∧ (make_request cfg key t1 e1 m1 d1 x1).events.head?
        = some (.issuedToken t1 (tokenString cfg key t1))
    ∧ sentRequests (make_request cfg key t1 e1 m1 d1 x1).events
        = [builtRequest cfg e1 m1 d1 (tokenString cfg key t1)]
    ∧ (make_request cfg key t1 e1 m1 d1 x1).clientAfter = cfg
    ∧ (make_request cfg key t2 e2 m2 d2 x2).events.head?
        = some (.issuedToken t2 (tokenString cfg key t2))
    ∧ (make_request cfg key t2 e2 m2 d2 x2).clientAfter = cfg
    ∧ (tokenPayload cfg t1).iat = t1
    ∧ (tokenPayload cfg t2).iat = t2 :=
  ⟨rfl, rfl, rfl, rfl, rfl, rfl, rfl, rfl⟩

/-- C1: the returned dictionary preserves exactly the information the spec's
classification table needs — 401/403 responses are classified `AuthFailure`
and never `ClientError` under the abstraction `result_tag`, and in general
for every status in the table and a JSON-parsable body, the abstraction of
the result equals the table's tag. -/
theorem C1_status_classification (cfg : ClientConfig) (key now : Nat)
    (endpoint method : String) (data : Option Json) (status : Nat)
    (text : String) :
    (∀ parsed : Option Json, status = 401 ∨ status = 403 →
      result_tag (make_request cfg key now endpoint method data
        (.response status text parsed)).result = some .AuthFailure
      ∧ result_tag (make_request cfg key now endpoint method data
          (.response status text parsed)).result ≠ some .ClientError)
    ∧ ∀ (j : Json) (t : OutcomeTag), spec_tag status = some t →
        result_tag (make_request cfg key now endpoint method data
          (.response status text (some j))).result = some t := by
  constructor
  · intro parsed hs
    have hne : ¬ (status = 200 ∨ status = 201 ∨ status = 202) := by
      rcases hs with h | h <;> omega
    have hcls : (make_request cfg key now endpoint method data
        (.response status text parsed)).result
        = .errorDict (.status status) text endpoint := by
      simp only [make_request_result, classify_response]
      rw [if_neg hne]
    rw [hcls]
    simp only [result_tag]
    rw [if_pos hs]
    exact ⟨rfl, by simp⟩
  · intro j t htab
    simp only [make_request_result, classify_response]
    simp only [spec_tag] at htab
    split_ifs at htab with h1 h2 h3 h4
    · injection htab with ht
      subst ht
      rw [if_pos h1]
      rfl
    · injection htab with ht
      subst ht
      rw [if_neg h1]
      simp only [result_tag]
      rw [if_pos h2]
    · injection htab with ht
      subst ht
      rw [if_neg h1]
      simp only [result_tag]
      rw [if_neg h2, if_pos h3]
    · injection htab with ht
      subst ht
      rw [if_neg h1]
      simp only [result_tag]
      rw [if_neg h2, if_neg h3, if_pos h4]

/-- Witness for C1: a concrete 401 response is classified `AuthFailure` and
not `ClientError`. -/
theorem C1_witness :
    result_tag (make_request magicalStoriesConfig 0 0 "/v1/apps" "GET" none
      (.response 401 "unauthorized" (some .null))).result
        = some OutcomeTag.AuthFailure
    ∧ result_tag (make_request magicalStoriesConfig 0 0 "/v1/apps" "GET" none
        (.response 401 "unauthorized" (some .null))).result
        ≠ some OutcomeTag.ClientError :=
  (C1_status_classification magicalStoriesConfig 0 0 "/v1/apps" "GET" none 401
    "unauthorized").1 (some .null) (Or.inl rfl)

/-- C4 counterexample: a concrete `make_request` invocation sends its HTTP
request with `timeout = none` — `requests`' default of no timeout — so the
exchange is not executed under any bounded timeout, contrary to the claim
that every invocation is. -/
theorem C4_counterexample :
    sentRequests (make_request magicalStoriesConfig 0 0 "/v1/apps" "GET" none
      (.raised "timed out")).events
      = [builtRequest magicalStoriesConfig "/v1/apps" "GET" none
          (tokenString magicalStoriesConfig 0 0)]
    ∧ (builtRequest magicalStoriesConfig "/v1/apps" "GET" none
        (tokenString magicalStoriesConfig 0 0)).timeout = none :=
  ⟨rfl, rfl⟩

/-- C4 amended: `make_request` / `make_appstore_request` pass no timeout at
all to the HTTP layer (only `appstore_auth_test.test_token` passes a
30-second timeout), and when the transport raises a timeout exception the
call resolves to the `request_failed` dictionary instead of propagating. -/
theorem C4_timeout_amended (cfg : ClientConfig) (key now : Nat)
    (endpoint method : String) (data : Option Json) (token msg : String) :
    (builtRequest cfg endpoint method data token).timeout = none
    ∧ (test_token_request endpoint token).timeout = some 30
    ∧ (make_request cfg key now endpoint method data (.raised msg)).result
        = .errorDict .request_failed msg endpoint :=
  ⟨rfl, rfl, rfl⟩

/-- C5 counterexample: a 200 response with an unparsable body makes
`make_request` return the `request_failed` dictionary — the same shape as a
transport failure, classified `TransportFailure` and not `ServerError` by the
abstraction — contrary to the claimed `ServerError` outcome. -/
theorem C5_counterexample :
    (make_request magicalStoriesConfig 0 0 "/v1/apps" "GET" none
      (.response 200 "<html>" none)).result
      = .errorDict .request_failed (decodeErrMsg "<html>") "/v1/apps"
    ∧ result_tag (make_request magicalStoriesConfig 0 0 "/v1/apps" "GET" none
        (.response 200 "<html>" none)).result
        = some OutcomeTag.TransportFailure
    ∧ result_tag (make_request magicalStoriesConfig 0 0 "/v1/apps" "GET" none
        (.response 200 "<html>" none)).result
        ≠ some OutcomeTag.ServerError := by
  have hres : (make_request magicalStoriesConfig 0 0 "/v1/apps" "GET" none
      (.response 200 "<html>" none)).result
      = .errorDict .request_failed (decodeErrMsg "<html>") "/v1/apps" := rfl
  refine ⟨hres, ?_, ?_⟩
  · rw [hres]
    rfl
  · rw [hres]
    simp [result_tag]

/-- C5 amended: for every 2xx-classified response (status 200, 201 or 202)
whose body fails to parse as JSON, `make_request` returns the generic
`request_failed` dictionary carrying the decode-error message — never a
`Success`. -/
theorem C5_decode_failure_amended (cfg : ClientConfig) (key now : Nat)
    (endpoint method : String) (data : Option Json) (status : Nat)
    (text : String)
    (hst : status = 200 ∨ status = 201 ∨ status = 202) :
    (make_request cfg key now endpoint method data
      (.response status text none)).result
      = .errorDict .request_failed (decodeErrMsg text) endpoint
    ∧ ∀ j, (make_request cfg key now endpoint method data
        (.response status text none)).result ≠ .success j := by
  have hres : (make_request cfg key now endpoint method data
      (.response status text none)).result
      = .errorDict .request_failed (decodeErrMsg text) endpoint := by
    simp only [make_request_result, classify_response]
    rw [if_pos hst]
  refine ⟨hres, fun j h => ?_⟩
  rw [hres] at h
  exact RequestResult.noConfusion h

/-- Witness for C5's amended claim at a concrete 200 response with an
unparsable body. -/
theorem C5_witness :
    (make_request magicalStoriesConfig 0 0 "/v1/apps" "GET" none
      (.response 200 "<body>" none)).result
      = .errorDict .request_failed (decodeErrMsg "<body>") "/v1/apps"
    ∧ ∀ j, (make_request magicalStoriesConfig 0 0 "/v1/apps" "GET" none
        (.response 200 "<body>" none)).result ≠ .success j :=
  C5_decode_failure_amended magicalStoriesConfig 0 0 "/v1/apps" "GET" none 200
    "<body>" (Or.inl rfl)

/-- C9 counterexample: a GET request built with no body still carries the
`Content-Type: application/json` header, contrary to the claim that the
header is present exactly when a body is. -/
theorem C9_counterexample :
    (builtRequest magicalStoriesConfig "/v1/apps" "GET" none
      (tokenString magicalStoriesConfig 0 0)).jsonBody = none
    ∧ ("Content-Type", "application/json")
        ∈ (builtRequest magicalStoriesConfig "/v1/apps" "GET" none
            (tokenString magicalStoriesConfig 0 0)).headers := by
  refine ⟨rfl, ?_⟩
  exact List.mem_cons_of_mem _ (List.mem_cons_self _ _)

/-- C9 amended: the headers of every request built by `make_request` are
exactly `Authorization: Bearer <freshly issued token>` and
`Content-Type: application/json`, whether or not a body is present. -/
theorem C9_headers_amended (cfg : ClientConfig) (key now : Nat)
    (endpoint method : String) (data : Option Json) (exchange : Exchange) :
    sentRequests (make_request cfg key now endpoint method data
      exchange).events
      = [builtRequest cfg endpoint method data (tokenString cfg key now)]
    ∧ (builtRequest cfg endpoint method data (tokenString cfg key now)).headers
      = [("Authorization", "Bearer " ++ tokenString cfg key now),
         ("Content-Type", "application/json")] :=
  ⟨rfl, rfl⟩

end MagicalStories
